import Mathlib

/-!
Verification of the NIROGYA fusion/classification/aggregation pipeline.

Shallow embedding of the Python source:
* `backend/services/predictor.py` — feature building and classifier invocation;
* `backend/services/merger.py` — identity resolution, coordinate extraction,
  and the merge-predict-store pipeline;
* `backend/routes/prediction_outbreaks.py` — the outbreak aggregation endpoint.

Python values are modelled by the inductive `PyVal` (dicts as association
lists, floats as exact rationals), Python exceptions by `Except PyErr`,
and the MongoDB side effects of the pipeline by an explicit `DB` state
threaded through `mergeAndPredictAndStore`.  Timestamps (`datetime.utcnow`)
are opaque pass-through data irrelevant to the verified properties and are
omitted from the record models.
-/

/-- Model of a Python/BSON value as it appears in the processed documents.
`rat` models a Python float exactly as a rational; `oid` models `bson.ObjectId`. -/
inductive PyVal where
  | none
  | bool (b : Bool)
  | int (n : Int)
  | rat (q : Rat)
  | str (s : String)
  | oid (h : String)
  | list (xs : List PyVal)
  | dict (kvs : List (String × PyVal))

/-- Python truthiness (`bool(v)`): `None`, `0`, `""`, `[]`, `{}` are falsy;
an `ObjectId` is always truthy. -/
def pyTruthy : PyVal → Bool
  | .none => false
  | .bool b => b
  | .int n => n != 0
  | .rat q => q != 0
  | .str s => s.length != 0
  | .oid _ => true
  | .list xs => !xs.isEmpty
  | .dict kvs => !kvs.isEmpty

def PyVal.isStr : PyVal → Bool
  | .str _ => true
  | _ => false

def PyVal.isDictV : PyVal → Bool
  | .dict _ => true
  | _ => false

/-- A Python dict (`Dict[str, Any]`), modelled as an association list
with unique keys and insertion order preserved. -/
abbrev PyDict := List (String × PyVal)

/-- `d.get(k)` on a dict: the stored value, or `None` when the key is absent. -/
def dGet (d : PyDict) (k : String) : PyVal :=
  (List.lookup k d).getD .none

/-- `d.get(k, default)` on a dict. -/
def dGetD (d : PyDict) (k : String) (v : PyVal) : PyVal :=
  (List.lookup k d).getD v

/-- `k in d` on a dict (key membership). -/
def hasKey (d : PyDict) (k : String) : Bool :=
  (List.lookup k d).isSome

/-- `.get(k)` through a `PyVal` known (or checked) to be a dict; non-dicts
yield `None` (all call sites are guarded by `isinstance(…, dict)` in the source). -/
def pyGet (v : PyVal) (k : String) : PyVal :=
  match v with
  | .dict kvs => dGet kvs k
  | _ => .none

/-- Python `a or b`: `a` when truthy, otherwise `b`. -/
def pyOr (a b : PyVal) : PyVal :=
  if pyTruthy a then a else b

/-- The Python exceptions the modelled code can raise. -/
inductive PyErr where
  | attributeError
  | typeError
  | valueError
  | runtimeError
deriving DecidableEq, Repr

/-- `str(v)`.  Container reprs are abstracted (they are never compared against
symptom keywords and never round-tripped by the modelled code). -/
def pyStrOf : PyVal → String
  | .none => "None"
  | .bool b => if b then "True" else "False"
  | .int n => toString n
  | .rat q => toString q
  | .str s => s
  | .oid h => h
  | .list _ => "[\x2e\x2e\x2e]"
  | .dict _ => "\x7b\x2e\x2e\x2e\x7d"

/-- Python `str.strip()` on a character list: drop whitespace at both ends. -/
def stripChars (cs : List Char) : List Char :=
  ((cs.dropWhile Char.isWhitespace).reverse.dropWhile Char.isWhitespace).reverse

/-- Python `str.strip()`. -/
def pyStrip (s : String) : String := ⟨stripChars s.data⟩

/-- Python `str.lower()` (ASCII case folding, which covers every string the
modelled code compares). -/
def pyLower (s : String) : String := ⟨s.data.map Char.toLower⟩

/-- Split a character list at every occurrence of `sep`
(Python `str.split(sep)` for a one-character separator). -/
def splitOnChar (sep : Char) : List Char → List (List Char)
  | [] => [[]]
  | c :: t =>
    match splitOnChar sep t with
    | [] => [[c]]
    | h :: r => if c == sep then [] :: h :: r else (c :: h) :: r

/-- Python `s.split(",")`. -/
def pySplitComma (s : String) : List String := (splitOnChar ',' s.data).map String.mk

/-- Whether `pat` starts the list `l`. -/
def startsWithChars : List Char → List Char → Bool
  | [], _ => true
  | _ :: _, [] => false
  | p :: ps, c :: cs => p == c && startsWithChars ps cs

/-- Contiguous-substring search on character lists. -/
def subChars (pat : List Char) : List Char → Bool
  | [] => pat.isEmpty
  | l@(_ :: t) => startsWithChars pat l || subChars pat t

/-- Digits of a decimal string, folded into a natural number. -/
def digitsToNat (cs : List Char) : Nat :=
  cs.foldl (fun a c => a * 10 + (c.toNat - 48)) 0

/-- Parse a plain decimal string (optional sign, digits, optional fractional
part) as `float(str)` would; exotic forms (exponents, inf/nan) are treated as
unparsable, which only makes `float` fail on a few more strings — every such
failure is swallowed by `_safe_float` anyway. -/
def parseDecimal (s : String) : Option Rat :=
  let t := stripChars s.data
  let (neg, rest) :=
    match t with
    | '-' :: r => (true, r)
    | '+' :: r => (false, r)
    | r => (false, r)
  match splitOnChar '.' rest with
  | [a] =>
      if !a.isEmpty && a.all Char.isDigit then
        some (mkRat (if neg then -(digitsToNat a : Int) else (digitsToNat a : Int)) 1)
      else Option.none
  | [a, b] =>
      if (!a.isEmpty || !b.isEmpty) && a.all Char.isDigit && b.all Char.isDigit then
        let num : Nat := digitsToNat a * 10 ^ b.length + digitsToNat b
        some (mkRat (if neg then -(num : Int) else (num : Int)) (10 ^ b.length))
      else Option.none
  | _ => Option.none

/-- `float(v)`: numbers and booleans coerce, numeric strings parse, everything
else raises (`TypeError`/`ValueError`). -/
def pyFloat : PyVal → Except PyErr Rat
  | .int n => .ok (n : Rat)
  | .rat q => .ok q
  | .bool b => .ok (if b then 1 else 0)
  | .str s =>
      match parseDecimal s with
      | some q => .ok q
      | Option.none => .error .valueError
  | _ => .error .typeError

/-- `_safe_float` (predictor.py): convert to float, `0.0` on any error. -/
def safeFloat (v : PyVal) : Rat :=
  match pyFloat v with
  | .ok q => q
  | .error _ => 0

/-- `(v or "").strip()` — used for the three categorical feature fields.
A truthy non-string has no `.strip` and raises `AttributeError`. -/
def pyStripOrEmpty (v : PyVal) : Except PyErr String :=
  match pyOr v (.str "") with
  | .str s => .ok (pyStrip s)
  | _ => .error .attributeError

/-- `normalize_symptoms` (predictor.py): falsy → `[]`; a string is comma-split,
stripped and lowercased; any other value is iterated with `str(s).lower()`
per element (a dict iterates over its keys); a truthy non-iterable raises
`TypeError`. -/
def normalizeSymptoms (v : PyVal) : Except PyErr (List String) :=
  if !pyTruthy v then .ok []
  else
    match v with
    | .str s => .ok ((pySplitComma s).map fun x => pyLower (pyStrip x))
    | .list xs => .ok (xs.map fun x => pyLower (pyStrOf x))
    | .dict kvs => .ok (kvs.map fun kv => pyLower kv.fst)
    | _ => .error .typeError

/-- District source in `build_features`:
`(s_doc.get("district") if s_doc else None) or (w_doc.get("district") if w_doc else None)`. -/
def districtRaw (w s : PyDict) : PyVal :=
  pyOr (if !s.isEmpty then dGet s "district" else .none)
       (if !w.isEmpty then dGet w "district" else .none)

/-- Location source in `build_features` (symptom document first). -/
def locationRaw (w s : PyDict) : PyVal :=
  pyOr (if !s.isEmpty then dGet s "location" else .none)
       (if !w.isEmpty then dGet w "location" else .none)

/-- Water-source label in `build_features`:
`w_doc.get("primary_water_source") or w_doc.get("water_source") or w_doc.get("primaryWaterSource")`. -/
def sourceRaw (w : PyDict) : PyVal :=
  if !w.isEmpty then
    pyOr (pyOr (dGet w "primary_water_source") (dGet w "water_source"))
         (dGet w "primaryWaterSource")
  else .none

/-- Symptom source in `build_features`: `s_doc.get("symptoms") if s_doc else []`. -/
def symptomsRaw (s : PyDict) : PyVal :=
  if !s.isEmpty then dGet s "symptoms" else .list []

/-- The fixed training schema: the 17 feature names in their exact order. -/
def featureOrder : List String :=
  ["district", "location", "primary_source",
   "ph", "turbidity", "tds", "chlorine", "fluoride", "nitrate", "coliform",
   "temperature",
   "diarrhea", "vomiting", "fever", "abdominal_pain", "dehydration", "headache"]

/-- `build_features` (predictor.py): the Feature Builder.  Categorical fields
are stripped strings (raising on truthy non-strings), the 8 numeric fields go
through `_safe_float`, and the 6 symptom flags test membership in the
normalized symptom list. -/
def build_features (w s : PyDict) : Except PyErr (List (String × PyVal)) :=
  match pyStripOrEmpty (districtRaw w s) with
  | .error e => .error e
  | .ok district =>
  match pyStripOrEmpty (locationRaw w s) with
  | .error e => .error e
  | .ok location =>
  match pyStripOrEmpty (sourceRaw w) with
  | .error e => .error e
  | .ok source =>
  match normalizeSymptoms (symptomsRaw s) with
  | .error e => .error e
  | .ok syms =>
    let ph := safeFloat (if !w.isEmpty then pyOr (dGet w "ph") (dGet w "pH") else .int 0)
    let turbidity := safeFloat (if !w.isEmpty then dGetD w "turbidity" (.int 0) else .int 0)
    let tds := safeFloat (if !w.isEmpty then dGetD w "tds" (.int 0) else .int 0)
    let chlorine := safeFloat (if !w.isEmpty then dGetD w "chlorine" (.int 0) else .int 0)
    let fluoride := safeFloat (if !w.isEmpty then dGetD w "fluoride" (.int 0) else .int 0)
    let nitrate := safeFloat (if !w.isEmpty then dGetD w "nitrate" (.int 0) else .int 0)
    let coliform := safeFloat (if !w.isEmpty then dGetD w "coliform" (.int 0) else .int 0)
    let temperature := safeFloat (if !w.isEmpty then dGetD w "temperature" (.int 0) else .int 0)
    let diarrhea : Int := if syms.contains "diarrhea" then 1 else 0
    let vomiting : Int := if syms.contains "vomiting" then 1 else 0
    let fever : Int := if syms.contains "fever" then 1 else 0
    let abdominal : Int :=
      if syms.contains "abdominal pain" || syms.contains "stomach pain" then 1 else 0
    let dehydration : Int := if syms.contains "dehydration" then 1 else 0
    let headache : Int := if syms.contains "headache" then 1 else 0
    .ok [("district", .str district), ("location", .str location),
         ("primary_source", .str source),
         ("ph", .rat ph), ("turbidity", .rat turbidity), ("tds", .rat tds),
         ("chlorine", .rat chlorine), ("fluoride", .rat fluoride),
         ("nitrate", .rat nitrate), ("coliform", .rat coliform),
         ("temperature", .rat temperature),
         ("diarrhea", .int diarrhea), ("vomiting", .int vomiting),
         ("fever", .int fever), ("abdominal_pain", .int abdominal),
         ("dehydration", .int dehydration), ("headache", .int headache)]

/-- The feature vector produced for a pair of empty input documents:
all defaults (empty categorical strings, `0.0` measurements, `0` flags). -/
def defaultFeatureVector : List (String × PyVal) :=
  [("district", .str ""), ("location", .str ""), ("primary_source", .str ""),
   ("ph", .rat 0), ("turbidity", .rat 0), ("tds", .rat 0),
   ("chlorine", .rat 0), ("fluoride", .rat 0), ("nitrate", .rat 0),
   ("coliform", .rat 0), ("temperature", .rat 0),
   ("diarrhea", .int 0), ("vomiting", .int 0), ("fever", .int 0),
   ("abdominal_pain", .int 0), ("dehydration", .int 0), ("headache", .int 0)]

/-! ## merger.py — identity resolution -/

/-- A MongoDB ObjectId, identified by its 24-hex-char representation. -/
structure OId where
  hex : String
deriving DecidableEq, Repr

/-- `_looks_like_objectid` (merger.py): a 24-character hexadecimal string. -/
def looksLikeObjectId (s : String) : Bool :=
  s.length == 24 &&
    s.toList.all (fun c => c.isDigit || ('a' ≤ c && c ≤ 'f') || ('A' ≤ c && c ≤ 'F'))

/-- `_maybe_cast_to_objectid` (merger.py): pass an ObjectId through, cast a
24-hex-char string, `None` for everything else. -/
def maybeCastToObjectId (v : PyVal) : Option OId :=
  match v with
  | .oid h => some ⟨h⟩
  | .str s => if looksLikeObjectId s then some ⟨s⟩ else Option.none
  | _ => Option.none

/-- One user document of the backing user registry (`users_col`). -/
structure UserRec where
  userId : OId
  email : String
  phone : String
  fullName : String
deriving DecidableEq, Repr

/-- Substring test, modelling Python `in` on strings and the `$regex`
substring lookups. -/
def strContains (s pat : String) : Bool :=
  subChars pat.data s.data

/-- `_find_user_id_from_string` (merger.py): the identity-resolution cascade
over one string value — ObjectId-looking strings are returned as raw handles
immediately; otherwise email (case-insensitive exact), phone (digit-substring)
and full-name (case-insensitive exact) registry lookups are tried in order. -/
def findUserIdFromString (users : List UserRec) (val : PyVal) : Option OId :=
  if !pyTruthy val || !val.isStr then Option.none
  else
    match maybeCastToObjectId val with
    | some o => some o
    | Option.none =>
      let s := pyStrOf val
      let viaEmail :=
        if s.data.contains '@' && s.data.contains '.' then
          (users.find? fun u => pyLower u.email == pyLower s).map (·.userId)
        else Option.none
      match viaEmail with
      | some o => some o
      | Option.none =>
        let digits := s.data.filter Char.isDigit
        let viaPhone :=
          if 6 ≤ digits.length then
            (users.find? fun u => subChars digits u.phone.data).map (·.userId)
          else Option.none
        match viaPhone with
        | some o => some o
        | Option.none =>
          (users.find? fun u => pyLower u.fullName == pyLower s).map (·.userId)

/-- The candidate reporter-id keys scanned by `_resolve_reporter_id_from_doc`. -/
def candidateKeys : List String :=
  ["reported_by_user_id", "reported_by_user", "reported_by",
   "reportedBy", "reportedById", "reportedBy_id",
   "submittedBy", "submitted_by", "submittedById",
   "user_id", "userId", "submitted_by_user_id"]

/-- Per-value resolution step shared by the key loop and the meta loop of
`_resolve_reporter_id_from_doc`. -/
def resolveFromVal (users : List UserRec) (val : PyVal) : Option OId :=
  match val with
  | .oid h => some ⟨h⟩
  | _ =>
    match maybeCastToObjectId val with
    | some o => some o
    | Option.none => if val.isStr then findUserIdFromString users val else Option.none

/-- The main key loop of `_resolve_reporter_id_from_doc`. -/
def resolveLoop (users : List UserRec) (doc : PyDict) : List String → Option OId
  | [] => Option.none
  | k :: ks =>
    if hasKey doc k && pyTruthy (dGet doc k) then
      match resolveFromVal users (dGet doc k) with
      | some o => some o
      | Option.none => resolveLoop users doc ks
    else resolveLoop users doc ks

/-- The `meta` loop of `_resolve_reporter_id_from_doc`.  `meta` has already
been defaulted by `doc.get("meta") or {}`; a truthy non-dict `meta` raises
(`k in meta` on a string is a substring test followed by a failing `.get`,
and is a `TypeError` on other non-containers). -/
def metaPhase (users : List UserRec) (meta : PyVal) : List String → Except PyErr (Option OId)
  | [] => .ok Option.none
  | k :: ks =>
    match meta with
    | .dict kvs =>
      if hasKey kvs k && pyTruthy (dGet kvs k) then
        match resolveFromVal users (dGet kvs k) with
        | some o => .ok (some o)
        | Option.none => metaPhase users meta ks
      else metaPhase users meta ks
    | .str s => if strContains s k then .error .attributeError else metaPhase users meta ks
    | .list xs =>
      if xs.any (fun v => match v with | .str s2 => s2 == k | _ => false) then
        .error .attributeError
      else metaPhase users meta ks
    | _ => .error .typeError

/-- `_resolve_reporter_id_from_doc` (merger.py). -/
def resolveReporterIdFromDoc (users : List UserRec) (doc : PyDict) :
    Except PyErr (Option OId) :=
  if doc.isEmpty then .ok Option.none
  else
    match resolveLoop users doc candidateKeys with
    | some o => .ok (some o)
    | Option.none => metaPhase users (pyOr (dGet doc "meta") (.dict [])) ["submitted_by", "reported_by"]

/-! ## merger.py — coordinate extraction -/

/-- Discrete lat/lng collection shape of `_extract_center`: the pair is
collected only when **both** fields are truthy. -/
def candLatLng (d : PyVal) (kLat kLng : String) : List PyVal :=
  if pyTruthy (pyGet d kLat) && pyTruthy (pyGet d kLng) then
    [.list [pyGet d kLat, pyGet d kLng]]
  else []

/-- The common coordinate keys scanned first by `_extract_center`. -/
def coordKeys : List String :=
  ["center", "coords", "coordinates", "location_coords", "latlng", "lat_lng"]

/-- Per-key collection of `_extract_center`: a list value of length ≥ 2 is
collected as-is; a dict value with `lat` and `lng` keys (presence, not
truthiness) is collected as a `[lat, lng]` pair. -/
def candFromKey (doc : PyVal) (k : String) : List PyVal :=
  (match pyGet doc k with
   | .list xs => if 2 ≤ xs.length then [.list xs] else []
   | _ => []) ++
  (match pyGet doc k with
   | .dict kvs =>
     if hasKey kvs "lat" && hasKey kvs "lng" then
       [.list [dGet kvs "lat", dGet kvs "lng"]]
     else []
   | _ => [])

/-- Candidates nested one level under the `input` container. -/
def candInputNested (doc : PyVal) : List PyVal :=
  match pyGet doc "input" with
  | .dict _ =>
    ["sym_doc", "water_doc"].flatMap fun sub =>
      let d2 := pyGet (pyGet doc "input") sub
      match d2 with
      | .dict _ =>
        candLatLng d2 "lat" "lng" ++
          (if pyTruthy (pyGet d2 "location_coords") then [pyGet d2 "location_coords"] else [])
      | _ => []
  | _ => []

/-- Candidates from `meta` (`doc.get("meta") or {}`): `meta.geo`'s discrete
pair, then `meta`'s own discrete pair.  A truthy non-dict `meta` has no `.get`
and raises `AttributeError`. -/
def metaCandsOf (doc : PyVal) : Except PyErr (List PyVal) :=
  let meta := pyOr (pyGet doc "meta") (.dict [])
  match meta with
  | .dict _ =>
    .ok ((match pyGet meta "geo" with
          | .dict _ => candLatLng (pyGet meta "geo") "lat" "lng"
          | _ => []) ++
         candLatLng meta "lat" "lng")
  | _ => .error .attributeError

/-- All candidates collected from one document by `_extract_center`, in scan
order; a non-dict document contributes nothing (`continue`). -/
def docCands (doc : PyVal) : Except PyErr (List PyVal) :=
  if !doc.isDictV then .ok []
  else
    match metaCandsOf doc with
    | .error e => .error e
    | .ok ms =>
      .ok (coordKeys.flatMap (candFromKey doc) ++
           candLatLng doc "lat" "lng" ++
           candLatLng doc "latitude" "longitude" ++
           candInputNested doc ++
           ms)

/-- The selection loop of `_extract_center`: a dict candidate with `lat`/`lng`
keys or a sequence of length ≥ 2 is coerced with `float`; any coercion
exception skips the candidate and scanning continues. -/
def tryCoerce (c : PyVal) : Option (Rat × Rat) :=
  match c with
  | .dict kvs =>
    if hasKey kvs "lat" && hasKey kvs "lng" then
      match pyFloat (dGet kvs "lat"), pyFloat (dGet kvs "lng") with
      | .ok a, .ok b => some (a, b)
      | _, _ => Option.none
    else Option.none
  | .list (a :: b :: _) =>
    match pyFloat a, pyFloat b with
    | .ok x, .ok y => some (x, y)
    | _, _ => Option.none
  | _ => Option.none

/-- The `for c in candidates` loop of `_extract_center`. -/
def pickFirst : List PyVal → Option (Rat × Rat)
  | [] => Option.none
  | c :: cs =>
    match tryCoerce c with
    | some p => some p
    | Option.none => pickFirst cs

/-- `doc or {}` applied to each argument of `_extract_center`. -/
def orEmptyDict (d : PyVal) : PyVal := pyOr d (.dict [])

/-- `_extract_center` (merger.py): collect candidates from the symptom
document, then the water document, and return the first coercible one. -/
def extractCenter (symDoc waterDoc : PyVal) : Except PyErr (Option (Rat × Rat)) :=
  match docCands (orEmptyDict symDoc) with
  | .error e => .error e
  | .ok c1 =>
    match docCands (orEmptyDict waterDoc) with
    | .error e => .error e
    | .ok c2 => .ok (pickFirst (c1 ++ c2))

/-- Spec-side (§4.2): a candidate is *structurally valid* when it is a
`lat`/`lng` mapping or a sequence with at least two entries. -/
def structValid (c : PyVal) : Bool :=
  match c with
  | .dict kvs => hasKey kvs "lat" && hasKey kvs "lng"
  | .list xs => 2 ≤ xs.length
  | _ => false

/-- Spec-side (§4.2): numeric coercion of a structurally valid candidate. -/
def coerceBoth (c : PyVal) : Option (Rat × Rat) :=
  match c with
  | .dict kvs =>
    ((pyFloat (dGet kvs "lat")).toOption).bind fun a =>
      ((pyFloat (dGet kvs "lng")).toOption).map fun b => (a, b)
  | .list (a :: b :: _) =>
    ((pyFloat a).toOption).bind fun x =>
      ((pyFloat b).toOption).map fun y => (x, y)
  | _ => Option.none

/-- Spec-side (§4.2): the first structurally valid, numerically coercible
pair of a candidate list; coercion failures are skipped, never fatal. -/
def specFirstPair (cs : List PyVal) : Option (Rat × Rat) :=
  cs.findSome? fun c => if structValid c then coerceBoth c else Option.none

/-! ## predictor.py — classifier invocation, merger.py — fuse/store pipeline -/

/-- The module-level predictor state of predictor.py: the loaded CatBoost
model (abstracted to its integer class prediction on a data frame), the
training column order, and the label decoder.  A failed artifact load leaves
the `Option`s empty. -/
structure PredictorState where
  model : Option (List (String × PyVal) → Int)
  featureCols : List String
  labelEncoder : Option (Int → String)

/-- `pd.DataFrame([feat_dict], columns=_feature_cols)`: re-project the feature
dict onto the training column order (absent columns become NaN ≈ `None`). -/
def dfOf (cols : List String) (fv : List (String × PyVal)) : List (String × PyVal) :=
  cols.map fun c => (c, dGetD fv c .none)

/-- `predict_disease` (predictor.py): raise when the model is not loaded,
build features (which may itself raise), predict the class index, raise when
the label encoder is not loaded, decode the label. -/
def predictDisease (cfg : PredictorState) (w s : PyDict) : Except PyErr (String × List (String × PyVal)) :=
  match cfg.model with
  | Option.none => .error .runtimeError
  | some f =>
    match build_features w s with
    | .error e => .error e
    | .ok fv =>
      let idx := f (dfOf cfg.featureCols fv)
      match cfg.labelEncoder with
      | Option.none => .error .runtimeError
      | some g => .ok (g idx, fv)

/-- A persisted prediction record (the unified schema of merger.py §4);
`predicted_at` (a wall-clock timestamp) is omitted. -/
structure PredDoc where
  patientName : PyVal
  symptoms : PyVal
  input_water : PyDict
  predicted_disease : Option String
  feature_vector : Option (List (String × PyVal))
  center : Option (Rat × Rat)
  symptom_id : String
  water_id : Option String

/-- The MongoDB state touched by one fusion: the prediction collection, the
`processed_by_model` marks issued against symptom ids, and the recorded ASHA
submissions `(reporter, kind, report id)`. -/
structure DB where
  predictions : List PredDoc
  processedMarks : List PyVal
  ashaEvents : List (OId × String × PyVal)

/-- The `water_input` sub-document built in step 1 of
`merge_and_predict_and_store`. -/
def waterInputOf (sym water : PyDict) : PyDict :=
  [("location", pyOr (dGet sym "location") (dGet water "location")),
   ("district", dGet water "district"),
   ("ph", pyOr (dGet water "pH") (dGet water "ph")),
   ("turbidity", dGet water "turbidity"),
   ("tds", dGet water "tds"),
   ("chlorine", dGet water "chlorine"),
   ("fluoride", dGet water "fluoride"),
   ("nitrate", dGet water "nitrate"),
   ("coliform", dGet water "coliform"),
   ("temperature", dGet water "temperature"),
   ("primary_water_source", pyOr (dGet water "primary_water_source") (dGet water "water_source"))]

/-- `sym_doc.get("symptoms", [])`. -/
def symptomsListOf (sym : PyDict) : PyVal := dGetD sym "symptoms" (.list [])

/-- The value returned to the caller by a successful fusion. -/
structure MergeResult where
  predicted_disease : String
  feature_vector : List (String × PyVal)
  center : Option (Rat × Rat)

/-- The unified prediction document assembled in step 4 of
`merge_and_predict_and_store`. -/
def predDocOf (sym water : PyDict) (label : String) (fv : List (String × PyVal))
    (center : Option (Rat × Rat)) : PredDoc :=
  { patientName := dGet sym "patientName"
    symptoms := symptomsListOf sym
    input_water := waterInputOf sym water
    predicted_disease := some label
    feature_vector := some fv
    center := center
    symptom_id := pyStrOf (dGet sym "_id")
    water_id :=
      if !water.isEmpty && pyTruthy (dGet water "_id") then
        some (pyStrOf (dGet water "_id"))
      else Option.none }

/-- One best-effort ASHA-submission recording (step 7 of
`merge_and_predict_and_store`): performed only when the reporter resolves and
the report has a truthy id; resolution exceptions are logged and swallowed. -/
def ashaEventsOf (users : List UserRec) (doc : PyDict) (kind : String) :
    List (OId × String × PyVal) :=
  match resolveReporterIdFromDoc users doc with
  | .ok (some r) => if pyTruthy (dGet doc "_id") then [(r, kind, dGet doc "_id")] else []
  | _ => []

/-- `merge_and_predict_and_store` (merger.py): build the water input, run the
classifier, extract a center, persist one `PredDoc`, mark the symptom report
processed, best-effort record ASHA submissions, and return the prediction —
or swallow any exception raised before the persist step and return `None`
with the store untouched. -/
def mergeAndPredictAndStore (cfg : PredictorState) (users : List UserRec)
    (sym water : PyDict) (db : DB) : Option MergeResult × DB :=
  match predictDisease cfg (waterInputOf sym water) [("symptoms", symptomsListOf sym)] with
  | .error _ => (Option.none, db)
  | .ok (label, fv) =>
    match extractCenter (.dict sym) (.dict water) with
    | .error _ => (Option.none, db)
    | .ok center =>
      (some ⟨label, fv, center⟩,
       { predictions := db.predictions ++ [predDocOf sym water label fv center]
         processedMarks := db.processedMarks ++ [dGet sym "_id"]
         ashaEvents := db.ashaEvents ++ ashaEventsOf users sym "symptom" ++
           ashaEventsOf users water "water" })

/-! ## prediction_outbreaks.py — the outbreak aggregation endpoint -/

/-- `OUTBREAK_MIN_THRESHOLD` (module constant, prediction_outbreaks.py). -/
def OUTBREAK_MIN_THRESHOLD : Nat := 5

/-- `OUTBREAK_HIGH_THRESHOLD` (module constant, prediction_outbreaks.py). -/
def OUTBREAK_HIGH_THRESHOLD : Nat := 15

/-- `_determine_color`: classification against the module constants. -/
def determineColor (totalPredictions : Nat) : String :=
  if OUTBREAK_HIGH_THRESHOLD ≤ totalPredictions then "red"
  else if OUTBREAK_MIN_THRESHOLD ≤ totalPredictions then "yellow"
  else "green"

/-- `_determine_severity`: classification against the module constants. -/
def determineSeverity (totalPredictions : Nat) : String :=
  if OUTBREAK_HIGH_THRESHOLD ≤ totalPredictions then "high"
  else if OUTBREAK_MIN_THRESHOLD ≤ totalPredictions then "medium"
  else "low"

/-- `DISTRICT_COORDS` (prediction_outbreaks.py), in source order. -/
def DISTRICT_COORDS : List (String × Rat × Rat) :=
  [("guwahati", mkRat 261445 10000, mkRat 917362 10000),
   ("kamrup", mkRat 263161 10000, mkRat 915984 10000),
   ("Kamrup Metro", mkRat 2617 100, mkRat 9175 100),
   ("kamrup metro", mkRat 2617 100, mkRat 9175 100),
   ("jorhat", mkRat 267509 10000, mkRat 942037 10000),
   ("Jorhat", mkRat 2675 100, mkRat 9420 100),
   ("dibrugarh", mkRat 274728 10000, mkRat 949120 10000),
   ("Dibrugarh", mkRat 2748 100, mkRat 9491 100),
   ("silchar", mkRat 248333 10000, mkRat 927789 10000),
   ("Cachar", mkRat 2482 100, mkRat 9278 100),
   ("cachar", mkRat 2482 100, mkRat 9278 100),
   ("tezpur", mkRat 266528 10000, mkRat 927926 10000),
   ("Sonitpur", mkRat 2663 100, mkRat 9278 100),
   ("sonitpur", mkRat 2663 100, mkRat 9278 100),
   ("nagaon", mkRat 263479 10000, mkRat 926906 10000),
   ("tinsukia", mkRat 274886 10000, mkRat 953558 10000),
   ("shillong", mkRat 255788 10000, mkRat 918933 10000),
   ("tura", mkRat 255141 10000, mkRat 902032 10000),
   ("jowai", mkRat 254468 10000, mkRat 922116 10000),
   ("imphal", mkRat 248170 10000, mkRat 939368 10000),
   ("churachandpur", mkRat 243333 10000, mkRat 936667 10000),
   ("aizawl", mkRat 237271 10000, mkRat 927176 10000),
   ("lunglei", mkRat 228896 10000, mkRat 927400 10000),
   ("kohima", mkRat 256701 10000, mkRat 941077 10000),
   ("dimapur", mkRat 259060 10000, mkRat 937272 10000),
   ("agartala", mkRat 238315 10000, mkRat 912868 10000),
   ("udaipur", mkRat 235363 10000, mkRat 914847 10000),
   ("itanagar", mkRat 270844 10000, mkRat 936053 10000),
   ("tawang", mkRat 275861 10000, mkRat 918594 10000),
   ("pasighat", mkRat 280665 10000, mkRat 953271 10000),
   ("gangtok", mkRat 273389 10000, mkRat 886065 10000),
   ("namchi", mkRat 271668 10000, mkRat 883632 10000)]

/-- One name's registry probe inside `_get_coordinates`: exact key first,
then the lowercased key. -/
def lookupCoord (s : String) : Option (Rat × Rat) :=
  match List.lookup s DISTRICT_COORDS with
  | some c => some c
  | Option.none => List.lookup (pyLower s) DISTRICT_COORDS

/-- `_get_coordinates` (prediction_outbreaks.py): try the (truthy) district
name, then the (truthy) location name, each stripped, each exact-then-lowercase. -/
def getCoordinates (district location : String) : Option (Rat × Rat) :=
  match (if district ≠ "" then lookupCoord (pyStrip district) else Option.none) with
  | some c => some c
  | Option.none => if location ≠ "" then lookupCoord (pyStrip location) else Option.none

/-- One group row of the prediction-source aggregation: its `_id` key fields
(possibly null) and its count. -/
structure PredRow where
  district? : Option String
  area? : Option String
  disease? : Option String
  total : Nat
deriving DecidableEq, Repr

/-- One group row of the raw-symptom-source aggregation: its `_id` key fields,
its count, and the pushed per-document `symptoms` values. -/
structure SymRow where
  district? : Option String
  area? : Option String
  total : Nat
  symptoms : List PyVal

/-- One outbreak bucket of the endpoint response (`latestPredictionDate`
omitted as opaque pass-through). -/
structure Bucket where
  id : String
  district : String
  areaName : String
  disease : String
  totalPredictions : Nat
  coordinates : Option (Rat × Rat)
  color : String
  severity : String
  status : String
  source : String
deriving DecidableEq, Repr

/-- `doc["_id"].get("district") or ""`. -/
def displayDistrictP (r : PredRow) : String := r.district?.getD ""

/-- `doc["_id"].get("area") or district_name`. -/
def displayAreaP (r : PredRow) : String :=
  match r.area? with
  | some a => if a = "" then displayDistrictP r else a
  | Option.none => displayDistrictP r

/-- `doc["_id"].get("disease") or "Unknown"`. -/
def displayDiseaseP (r : PredRow) : String :=
  match r.disease? with
  | some d => if d = "" then "Unknown" else d
  | Option.none => "Unknown"

def displayDistrictS (r : SymRow) : String := r.district?.getD ""

def displayAreaS (r : SymRow) : String :=
  match r.area? with
  | some a => if a = "" then displayDistrictS r else a
  | Option.none => displayDistrictS r

/-- `f"…".replace(" ", "_").lower()` applied to the bucket id. -/
def mkOutbreakId (s : String) : String :=
  pyLower ⟨s.data.map fun c => if c == ' ' then '_' else c⟩

/-- The bucket built from one prediction-source group row. -/
def predBucketOf (r : PredRow) : Bucket :=
  let dn := displayDistrictP r
  let an := displayAreaP r
  let dis := displayDiseaseP r
  { id := mkOutbreakId ("pred-" ++ dn ++ "-" ++ an ++ "-" ++ dis)
    district := dn
    areaName := an
    disease := dis
    totalPredictions := r.total
    coordinates := getCoordinates dn an
    color := determineColor r.total
    severity := determineSeverity r.total
    status := "PREDICTED OUTBREAK"
    source := "prediction_reports" }

/-- The keyword-based disease inference over the flattened pushed symptoms.
`" ".join` requires every flattened entry to be a string and raises
`TypeError` otherwise. -/
def inferDisease (pushed : List PyVal) : Except PyErr String :=
  let flat := pushed.flatMap fun sv =>
    match sv with
    | .list xs => xs
    | v => if pyTruthy v then [v] else []
  if flat.all (fun v => v.isStr) then
    let sstr := pyLower ⟨List.intercalate [' '] ((flat.map pyStrOf).map String.data)⟩
    .ok (if strContains sstr "diarrhea" &&
            (strContains sstr "vomiting" || strContains sstr "dehydration") then "Cholera"
         else if strContains sstr "fever" && strContains sstr "abdominal" then "Typhoid"
         else if strContains sstr "fever" && strContains sstr "headache" then "Typhoid"
         else if strContains sstr "diarrhea" then "Diarrhea"
         else "Unknown")
  else .error .typeError

/-- The bucket built from one symptom-source group row. -/
def symBucketOf (r : SymRow) (dn an dis : String) : Bucket :=
  { id := mkOutbreakId ("symptom-" ++ dn ++ "-" ++ an)
    district := dn
    areaName := an
    disease := dis
    totalPredictions := r.total
    coordinates := getCoordinates dn an
    color := determineColor r.total
    severity := determineSeverity r.total
    status := "SYMPTOM CLUSTER"
    source := "symptoms_reports" }

/-- The duplicate check of the symptom loop: case-insensitive match of an
existing bucket against the row's display district/area names. -/
def lowerKeyMatch (o : Bucket) (dn an : String) : Bool :=
  pyLower o.district == pyLower dn && pyLower o.areaName == pyLower an

/-- The `async for` body of QUERY 2: skip a row whose display key is already
present (case-insensitively) in the running bucket list, otherwise infer a
disease and append a bucket; an inference exception aborts the loop, keeping
the buckets appended so far (the endpoint catches and logs it). -/
def symLoopAux : List Bucket → List SymRow → List Bucket
  | _, [] => []
  | seen, r :: rs =>
    if seen.any (fun o => lowerKeyMatch o (displayDistrictS r) (displayAreaS r)) then
      symLoopAux seen rs
    else
      match inferDisease r.symptoms with
      | .error _ => []
      | .ok dis =>
        symBucketOf r (displayDistrictS r) (displayAreaS r) dis ::
          symLoopAux (seen ++ [symBucketOf r (displayDistrictS r) (displayAreaS r) dis]) rs

/-- Insert for a stable descending sort by a numeric key (Python's stable
`sort(key=…, reverse=True)` and Mongo's `$sort: {…: -1}`). -/
def insertDescBy {α : Type} (f : α → Nat) (a : α) : List α → List α
  | [] => [a]
  | b :: bs => if f b < f a then a :: b :: bs else b :: insertDescBy f a bs

/-- Stable descending sort by a numeric key. -/
def sortDescBy {α : Type} (f : α → Nat) : List α → List α
  | [] => []
  | a :: as => insertDescBy f a (sortDescBy f as)

/-- The endpoint response (`window_days` echo and dates omitted). -/
structure OutbreakResponse where
  outbreaks : List Bucket
  thresholdMin : Nat
  thresholdHigh : Nat
  totalOutbreakAreas : Nat

/-- `get_prediction_outbreaks` (prediction_outbreaks.py), modelled from the
grouped aggregation rows onward: per source, keep rows with count ≥
`min_threshold`, sort descending, truncate to `limit`, build buckets
(prediction source first, then symptom clusters with cross-source
case-insensitive dedup), sort the union by count and truncate to `limit`.
Note that `high_threshold` is only echoed back — severity and color come from
the module constants. -/
def getPredictionOutbreaks (predRows : List PredRow) (symRows : List SymRow)
    (minThreshold highThreshold lim : Nat) : OutbreakResponse :=
  let predSel := (sortDescBy (·.total) (predRows.filter fun r => minThreshold ≤ r.total)).take lim
  let predB := predSel.map predBucketOf
  let symSel := (sortDescBy (·.total) (symRows.filter fun r => minThreshold ≤ r.total)).take lim
  let symB := symLoopAux predB symSel
  let allB := sortDescBy (·.totalPredictions) (predB ++ symB)
  { outbreaks := allB.take lim
    thresholdMin := minThreshold
    thresholdHigh := highThreshold
    totalOutbreakAreas := allB.length }

/-! ## Auxiliary definitions used by the claim statements -/

/-- A value `(v or "").strip()` accepts without raising: falsy or a string. -/
def stripSafe (v : PyVal) : Bool := !pyTruthy v || v.isStr

/-- A value `normalize_symptoms` accepts without raising: falsy or iterable
(string, list, dict). -/
def symSafe (v : PyVal) : Bool :=
  !pyTruthy v ||
    (match v with
     | .str _ => true
     | .list _ => true
     | .dict _ => true
     | _ => false)

/-- A symptom report carrying district `"A"`. -/
def c10sym : PyDict := [("_id", .str "s1"), ("district", .str "A"), ("symptoms", .list [])]

/-- A water report carrying district `"B"`. -/
def c10water : PyDict := [("_id", .str "w1"), ("district", .str "B")]

/-- A loaded predictor whose abstract model always predicts class 0 and whose
decoder maps every class to `"Cholera"`. -/
def c10cfg : PredictorState := ⟨some fun _ => 0, featureOrder, some fun _ => "Cholera"⟩

/-- District field of the feature vector stored in the first persisted
prediction record. -/
def storedFvDistrict (db : DB) : Option PyVal :=
  db.predictions.head?.bind fun d =>
    d.feature_vector.bind fun fv => List.lookup "district" fv

/-- District field of the `input_water` sub-document stored in the first
persisted prediction record. -/
def storedInputWaterDistrict (db : DB) : Option PyVal :=
  db.predictions.head?.map fun d => dGet d.input_water "district"

/-- The feature vector the fusion stores for `c10sym`/`c10water`: the
district is the water report's `"B"`. -/
def c10fv : List (String × PyVal) :=
  [("district", .str "B"), ("location", .str ""), ("primary_source", .str ""),
   ("ph", .rat 0), ("turbidity", .rat 0), ("tds", .rat 0), ("chlorine", .rat 0),
   ("fluoride", .rat 0), ("nitrate", .rat 0), ("coliform", .rat 0), ("temperature", .rat 0),
   ("diarrhea", .int 0), ("vomiting", .int 0), ("fever", .int 0),
   ("abdominal_pain", .int 0), ("dehydration", .int 0), ("headache", .int 0)]

/-- The database state after the `c10` fusion. -/
def c10dbOut : DB :=
  ⟨[predDocOf c10sym c10water "Cholera" c10fv Option.none], [.str "s1"], []⟩

/-- The display key of a returned bucket: (district, area, disease). -/
def bKey (b : Bucket) : String × String × String := (b.district, b.areaName, b.disease)

/-- The display key a prediction-source group row will be rendered under. -/
def rowKey (r : PredRow) : String × String × String :=
  (displayDistrictP r, displayAreaP r, displayDiseaseP r)

/-! ## Claim C1 — severity thresholds of the aggregation endpoint -/

/-- Claim C1 evaluated at its failing input: with caller thresholds
`min_threshold = 20`, `high_threshold = 25`, a bucket with count 21 is
returned with severity `"high"` and color `"red"`, not the claimed
`"medium"`/`"yellow"` — `_determine_severity`/`_determine_color` compare
against the module constants (5/15) and ignore the caller's thresholds,
contradicting the endpoint's own parameter documentation. -/
theorem c1_severity_ignores_caller_thresholds :
    ((getPredictionOutbreaks
        [⟨some "X", some "X", some "Cholera", 26⟩, ⟨some "X", some "Y", some "Cholera", 21⟩]
        [] 20 25 100).outbreaks.map fun b => (b.totalPredictions, b.severity, b.color)) =
      [(26, "high", "red"), (21, "high", "red")] := by
  rfl

/-! ## Claim C2 — classification failure persists nothing -/

/-- Claim C2: if the classifier invocation inside a fusion fails (for
example because the model or the label encoder was not loaded), then
`merge_and_predict_and_store` persists zero prediction records, issues no
processed-mark against the symptom report, records no reporter activity,
and returns an absent result to the caller rather than raising. -/
theorem c2_classification_failure_leaves_store_untouched
    (cfg : PredictorState) (users : List UserRec) (sym water : PyDict) (db : DB) (e : PyErr)
    (h : predictDisease cfg (waterInputOf sym water) [("symptoms", symptomsListOf sym)] = .error e) :
    mergeAndPredictAndStore cfg users sym water db = (Option.none, db) := by
  unfold mergeAndPredictAndStore
  rw [h]

/-- Claim C2 witness: with an unloaded model, the classifier fails with
`RuntimeError` and the fusion returns `None` with the store unchanged. -/
theorem c2_witness :
    predictDisease ⟨Option.none, [], Option.none⟩ (waterInputOf [] [])
        [("symptoms", symptomsListOf [])] = .error .runtimeError ∧
      mergeAndPredictAndStore ⟨Option.none, [], Option.none⟩ [] [] [] ⟨[], [], []⟩ =
        (Option.none, ⟨[], [], []⟩) :=
  ⟨rfl, c2_classification_failure_leaves_store_untouched _ [] [] [] _ .runtimeError rfl⟩

/-! ## Claim C3 — fixed 17-field schema -/

/-- Claim C3: every feature vector the Feature Builder produces, for any
pair of input documents, has exactly the 17 fields of the training schema in
their fixed order — district, location, primary water source, the 8 numeric
water measurements, then the 6 binary symptom indicators. -/
theorem c3_feature_vector_schema (w s : PyDict) (fv : List (String × PyVal))
    (h : build_features w s = .ok fv) :
    fv.map Prod.fst = featureOrder ∧ fv.length = 17 := by
  unfold build_features at h
  split at h
  · exact Except.noConfusion h
  · split at h
    · exact Except.noConfusion h
    · split at h
      · exact Except.noConfusion h
      · split at h
        · exact Except.noConfusion h
        · injection h with h'
          subst h'
          exact ⟨rfl, rfl⟩

/-- Claim C3 witness: the empty input pair produces the all-defaults
17-field vector in schema order. -/
theorem c3_witness :
    build_features [] [] = .ok defaultFeatureVector ∧
      defaultFeatureVector.map Prod.fst = featureOrder ∧ defaultFeatureVector.length = 17 :=
  ⟨rfl, c3_feature_vector_schema [] [] defaultFeatureVector rfl⟩

/-! ## Claim C4 — totality of the Feature Builder -/

theorem stripSafe_ok {v : PyVal} (h : stripSafe v = true) :
    ∃ s, pyStripOrEmpty v = .ok s := by
  unfold stripSafe at h
  unfold pyStripOrEmpty pyOr
  by_cases ht : pyTruthy v
  · simp [ht] at h ⊢
    cases v <;> simp_all [PyVal.isStr]
  · simp [ht]

theorem symSafe_ok {v : PyVal} (h : symSafe v = true) :
    ∃ l, normalizeSymptoms v = .ok l := by
  unfold symSafe at h
  unfold normalizeSymptoms
  by_cases ht : pyTruthy v
  · simp [ht] at h ⊢
    cases v <;> simp_all
  · simp [ht]

/-- Claim C4 counterexample: a truthy non-string district value makes
`build_features` raise `AttributeError` (`(district or "").strip()` on an
int), so the Feature Builder is **not** total on malformed categorical
fields. -/
theorem c4_counterexample :
    build_features [("district", .int 1)] [] = .error .attributeError := rfl

/-- Claim C4 (amended): the Feature Builder never raises provided every
truthy categorical source value (district, location, water source) is a
string and a truthy symptoms value is iterable (string, list or dict); under
that proviso missing and falsy fields degrade to the documented defaults —
in particular the empty input pair yields exactly the all-defaults vector
(empty categorical strings, 0.0 measurements, 0 flags). -/
theorem c4_totality_when_wellTyped (w s : PyDict)
    (h1 : stripSafe (districtRaw w s) = true)
    (h2 : stripSafe (locationRaw w s) = true)
    (h3 : stripSafe (sourceRaw w) = true)
    (h4 : symSafe (symptomsRaw s) = true) :
    (∃ fv, build_features w s = .ok fv) ∧
      build_features [] [] = .ok defaultFeatureVector := by
  refine ⟨?_, rfl⟩
  obtain ⟨d, hd⟩ := stripSafe_ok h1
  obtain ⟨l, hl⟩ := stripSafe_ok h2
  obtain ⟨src, hsrc⟩ := stripSafe_ok h3
  obtain ⟨sy, hsy⟩ := symSafe_ok h4
  unfold build_features
  rw [hd, hl, hsrc, hsy]
  exact ⟨_, rfl⟩

/-- Claim C4 witness: a malformed-numeric, well-typed-categorical input pair
satisfies the hypotheses and builds a vector. -/
theorem c4_witness :
    stripSafe (districtRaw [("ph", .str "abc")] [("symptoms", .list [.str "fever"])]) = true ∧
      stripSafe (locationRaw [("ph", .str "abc")] [("symptoms", .list [.str "fever"])]) = true ∧
      stripSafe (sourceRaw [("ph", .str "abc")]) = true ∧
      symSafe (symptomsRaw [("symptoms", .list [.str "fever"])]) = true ∧
      ((∃ fv, build_features [("ph", .str "abc")] [("symptoms", .list [.str "fever"])] = .ok fv) ∧
        build_features [] [] = .ok defaultFeatureVector) :=
  ⟨rfl, rfl, rfl, rfl,
   c4_totality_when_wellTyped [("ph", .str "abc")] [("symptoms", .list [.str "fever"])]
     rfl rfl rfl rfl⟩

/-! ## Claim C5 — 24-hex-char identity values -/

/-- Claim C5 counterexample: with an **empty** user registry, a
24-hex-char string does not resolve to none — `_find_user_id_from_string`
returns the value cast to an ObjectId before any registry lookup. -/
theorem c5_counterexample :
    findUserIdFromString [] (.str "aaaaaaaaaaaaaaaaaaaaaaaa") ≠ Option.none := by
  decide

/-- Claim C5 (amended): a 24-character hexadecimal candidate value is
interpreted as a raw identity handle: resolution returns the cast ObjectId
without consulting the user registry (the result is the same for every
registry state, matching or not), and never throws. -/
theorem c5_hex_is_raw_handle (users : List UserRec) (s : String)
    (h : looksLikeObjectId s = true) :
    findUserIdFromString users (.str s) = some ⟨s⟩ := by
  have h24 : s.length = 24 := by
    unfold looksLikeObjectId at h
    simp only [Bool.and_eq_true, beq_iff_eq] at h
    exact h.1
  unfold findUserIdFromString maybeCastToObjectId
  simp [PyVal.isStr, pyTruthy, h24, h]

/-- Claim C5 witness: a concrete 24-hex-char string resolves to its raw
handle against the empty registry. -/
theorem c5_witness :
    looksLikeObjectId "0123456789abcdef01234567" = true ∧
      findUserIdFromString [] (.str "0123456789abcdef01234567") =
        some ⟨"0123456789abcdef01234567"⟩ :=
  ⟨by decide, c5_hex_is_raw_handle [] "0123456789abcdef01234567" (by decide)⟩

/-! ## Claim C9 — falsy discrete coordinates are not collected -/

/-- Claim C9: a discrete lat/lng candidate in which either value is falsy
(in particular a numeric 0) contributes no candidate — the shape used for
the top-level `lat`/`lng` and `latitude`/`longitude` fields, the fields
nested under `input`, and the fields under `meta.geo` — so a report on the
equator or prime meridian never contributes coordinates through these
shapes: concretely, a document whose only coordinates are `lat = 0`,
`lng = 20` extracts no center at all. -/
theorem c9_falsy_discrete_latlng_not_collected :
    (∀ (d : PyVal) (kLat kLng : String),
        pyTruthy (pyGet d kLat) = false ∨ pyTruthy (pyGet d kLng) = false →
          candLatLng d kLat kLng = []) ∧
      extractCenter (.dict [("lat", .int 0), ("lng", .int 20)]) (.dict []) = .ok Option.none := by
  constructor
  · intro d kLat kLng h
    unfold candLatLng
    rcases h with h | h <;> simp [h]
  · rfl

/-- Claim C9 witness: the equatorial pair `lat = 0, lng = 5` is dropped by
the discrete-field shape. -/
theorem c9_witness :
    pyTruthy (pyGet (.dict [("lat", .int 0), ("lng", .int 5)]) "lat") = false ∧
      candLatLng (.dict [("lat", .int 0), ("lng", .int 5)]) "lat" "lng" = [] :=
  ⟨rfl, c9_falsy_discrete_latlng_not_collected.1 (.dict [("lat", .int 0), ("lng", .int 5)])
    "lat" "lng" (Or.inl rfl)⟩

/-! ## Claim C7 — coordinate extraction scan order -/

theorem tryCoerce_eq_spec (c : PyVal) :
    tryCoerce c = if structValid c then coerceBoth c else Option.none := by
  unfold tryCoerce structValid coerceBoth
  cases c with
  | dict kvs =>
    by_cases hk : (hasKey kvs "lat" && hasKey kvs "lng") = true
    · simp only [hk, if_true]
      cases pyFloat (dGet kvs "lat") <;> cases pyFloat (dGet kvs "lng") <;>
        simp [Except.toOption]
    · simp only [Bool.not_eq_true] at hk
      simp [hk]
  | list xs =>
    match xs with
    | [] => simp
    | [a] => simp
    | a :: b :: t =>
      have hlen : 2 ≤ (a :: b :: t).length := by simp
      cases ha : pyFloat a <;> cases hb : pyFloat b <;>
        simp [ha, hb, hlen, Except.toOption]
  | none => rfl
  | bool b => rfl
  | int n => rfl
  | rat q => rfl
  | str s => rfl
  | oid h => rfl

theorem pickFirst_eq_specFirstPair (cs : List PyVal) :
    pickFirst cs = specFirstPair cs := by
  induction cs with
  | nil => rfl
  | cons c cs ih =>
    unfold pickFirst specFirstPair
    rw [List.findSome?_cons]
    rw [← tryCoerce_eq_spec]
    cases tryCoerce c
    · simpa [specFirstPair] using ih
    · rfl

/-- Claim C7 counterexample: a document whose `meta` field holds a truthy
non-dict value makes `_extract_center` raise `AttributeError` instead of
scanning on — so the extractor is not total over all input document pairs
and failures there are fatal, not skipped. -/
theorem c7_counterexample :
    extractCenter (.dict [("meta", .str "x")]) (.dict []) = .error .attributeError := rfl

/-- Claim C7 (amended): whenever both documents' `meta` fields are absent,
falsy, or dicts (so that candidate collection raises nothing), the extractor
returns exactly the first structurally valid, numerically coercible candidate
under the fixed scan order, the symptom document's candidates scanned before
the water document's; it never merges candidates, and a candidate whose
values fail numeric coercion is skipped silently. -/
theorem c7_first_coercible_under_scan_order (s w : PyVal) (l1 l2 : List PyVal)
    (h1 : docCands (orEmptyDict s) = .ok l1)
    (h2 : docCands (orEmptyDict w) = .ok l2) :
    extractCenter s w = .ok (specFirstPair (l1 ++ l2)) := by
  unfold extractCenter
  rw [h1, h2]
  show Except.ok (pickFirst (l1 ++ l2)) = Except.ok (specFirstPair (l1 ++ l2))
  rw [pickFirst_eq_specFirstPair]

/-- Claim C7 witness: a document carrying a non-coercible `coords` pair
before a coercible discrete lat/lng pair skips the first candidate silently
and returns the second; the scan stops at the first success. -/
theorem c7_witness :
    docCands (orEmptyDict (.dict [("coords", .list [.str "x", .str "y"]),
        ("lat", .int 10), ("lng", .int 20)])) =
      .ok [.list [.str "x", .str "y"], .list [.int 10, .int 20]] ∧
    extractCenter (.dict [("coords", .list [.str "x", .str "y"]),
        ("lat", .int 10), ("lng", .int 20)]) (.dict []) =
      .ok (specFirstPair ([.list [.str "x", .str "y"], .list [.int 10, .int 20]] ++ [])) ∧
    extractCenter (.dict [("coords", .list [.str "x", .str "y"]),
        ("lat", .int 10), ("lng", .int 20)]) (.dict []) = .ok (some (10, 20)) :=
  ⟨rfl,
   c7_first_coercible_under_scan_order _ _ _ _ rfl rfl,
   rfl⟩

/-! ## Claim C8 — coordinate registry lookup -/

/-- Claim C8 counterexample: the registry holds both `"Jorhat"` and
`"jorhat"` with different coordinate values, and the lookup tries the exact
key before the lowercased key, so two district names equal up to letter case
resolve to different coordinates — the lookup is not case-insensitive. -/
theorem c8_counterexample :
    getCoordinates "Jorhat" "" ≠ getCoordinates "jorhat" "" := by decide

/-- Claim C8 (amended): the registry probe tries the exact (stripped) key
first and only then the lowercased key; consequently two names equal up to
case resolve identically whenever neither is itself an exact registry key.
The district name is still tried before the area name, and the result is
none when neither name matches any registry entry. -/
theorem c8_lookup_behavior (s t loc d l : String) (c : Rat × Rat)
    (h1 : pyLower (pyStrip s) = pyLower (pyStrip t))
    (h2 : List.lookup (pyStrip s) DISTRICT_COORDS = Option.none)
    (h3 : List.lookup (pyStrip t) DISTRICT_COORDS = Option.none) :
    getCoordinates s loc = getCoordinates t loc ∧
      (d ≠ "" → lookupCoord (pyStrip d) = some c → getCoordinates d l = some c) ∧
      ((d = "" ∨ lookupCoord (pyStrip d) = Option.none) →
        (l = "" ∨ lookupCoord (pyStrip l) = Option.none) →
        getCoordinates d l = Option.none) := by
  refine ⟨?_, ?_, ?_⟩
  · have hs' : lookupCoord (pyStrip s) = List.lookup (pyLower (pyStrip s)) DISTRICT_COORDS := by
      unfold lookupCoord
      rw [h2]
    have ht' : lookupCoord (pyStrip t) = List.lookup (pyLower (pyStrip t)) DISTRICT_COORDS := by
      unfold lookupCoord
      rw [h3]
    have h00 : List.lookup ("" : String) DISTRICT_COORDS = Option.none := by decide
    have key : (if s ≠ "" then lookupCoord (pyStrip s) else Option.none) =
        (if t ≠ "" then lookupCoord (pyStrip t) else Option.none) := by
      by_cases es : s = ""
      · by_cases et : t = ""
        · rw [if_neg (not_not_intro es), if_neg (not_not_intro et)]
        · rw [if_neg (not_not_intro es), if_pos et]
          have h0 : pyLower (pyStrip t) = "" := by
            rw [← h1, es]
            decide
          rw [ht', h0]
          exact h00.symm
      · by_cases et : t = ""
        · rw [if_pos es, if_neg (not_not_intro et)]
          have h0 : pyLower (pyStrip s) = "" := by
            rw [h1, et]
            decide
          rw [hs', h0]
          exact h00
        · rw [if_pos es, if_pos et, hs', ht', h1]
    unfold getCoordinates
    rw [key]
  · intro hd hc
    unfold getCoordinates
    simp [hd, hc]
  · intro hd hl
    unfold getCoordinates
    rcases hd with hd | hd <;> rcases hl with hl | hl <;> simp [hd, hl]

/-- Claim C8 witness: `"SILCHAR"` and `"Silchar"` (neither an exact registry
key) resolve identically, `"Jorhat"` resolves through the district argument
ahead of the location, and unmatched names fall back to none. -/
theorem c8_witness :
    pyLower (pyStrip "SILCHAR") = pyLower (pyStrip "Silchar") ∧
      List.lookup (pyStrip "SILCHAR") DISTRICT_COORDS = Option.none ∧
      List.lookup (pyStrip "Silchar") DISTRICT_COORDS = Option.none ∧
      (getCoordinates "SILCHAR" "" = getCoordinates "Silchar" "" ∧
        ("Jorhat" ≠ "" → lookupCoord (pyStrip "Jorhat") = some (mkRat 2675 100, mkRat 9420 100) →
          getCoordinates "Jorhat" "nowhere" = some (mkRat 2675 100, mkRat 9420 100)) ∧
        (("Jorhat" = "" ∨ lookupCoord (pyStrip "Jorhat") = Option.none) →
          ("nowhere" = "" ∨ lookupCoord (pyStrip "nowhere") = Option.none) →
          getCoordinates "Jorhat" "nowhere" = Option.none)) :=
  ⟨by decide, by decide, by decide,
   c8_lookup_behavior "SILCHAR" "Silchar" "" "Jorhat" "nowhere"
     (mkRat 2675 100, mkRat 9420 100) (by decide) (by decide) (by decide)⟩

/-! ## Claim C10 — provenance of the stored district fields -/

theorem build_ok_district (w s : PyDict) (fv : List (String × PyVal))
    (h : build_features w s = .ok fv) :
    ∃ d, pyStripOrEmpty (districtRaw w s) = .ok d ∧
      List.lookup "district" fv = some (.str d) := by
  unfold build_features at h
  split at h
  · exact Except.noConfusion h
  · next d hd =>
    split at h
    · exact Except.noConfusion h
    · split at h
      · exact Except.noConfusion h
      · split at h
        · exact Except.noConfusion h
        · injection h with h'
          subst h'
          exact ⟨d, hd, rfl⟩

theorem predict_ok_district (cfg : PredictorState) (w s : PyDict) (label : String)
    (fv : List (String × PyVal)) (h : predictDisease cfg w s = .ok (label, fv)) :
    ∃ d, pyStripOrEmpty (districtRaw w s) = .ok d ∧
      List.lookup "district" fv = some (.str d) := by
  unfold predictDisease at h
  split at h
  · exact Except.noConfusion h
  · split at h
    · exact Except.noConfusion h
    · next fv0 hbf =>
      split at h
      · exact Except.noConfusion h
      · injection h with h1
        injection h1 with ha hb
        subst hb
        exact build_ok_district _ _ _ hbf

/-- Claim C10 counterexample: with the symptom report's district `"A"` and
the water report's district `"B"`, the persisted record stores `"B"` in the
feature vector's district field (and in `input_water.district`), not the
symptom district — the claimed symptom precedence never reaches stored
records, because the fusion hands the predictor a symptom document holding
only the symptoms list. -/
theorem c10_counterexample :
    storedFvDistrict (mergeAndPredictAndStore c10cfg [] c10sym c10water ⟨[], [], []⟩).2 =
        some (.str "B") ∧
      storedInputWaterDistrict
          (mergeAndPredictAndStore c10cfg [] c10sym c10water ⟨[], [], []⟩).2 =
        some (.str "B") ∧
      dGet c10sym "district" = .str "A" ∧
      PyVal.str "B" ≠ PyVal.str "A" := by
  refine ⟨rfl, rfl, rfl, ?_⟩
  intro hcontra
  injection hcontra with h'
  exact absurd h' (by decide)

/-- Claim C10 (amended): in every persisted prediction record,
`input_water.district` is taken solely from the water report's district field
(a district present only in the symptom report never appears there); and
because the fusion passes the predictor a symptom document containing only
the symptoms list, the stored feature vector's district also derives from the
water report — it is the stripped water district, never the symptom one, so
the two stored fields differ at most by that strip/default normalization. -/
theorem c10_district_sources (cfg : PredictorState) (users : List UserRec)
    (sym water : PyDict) (db : DB) (r : MergeResult) (db' : DB)
    (h : mergeAndPredictAndStore cfg users sym water db = (some r, db')) :
    ∃ d, db'.predictions = db.predictions ++ [d] ∧
      dGet d.input_water "district" = dGet water "district" ∧
      d.feature_vector = some r.feature_vector ∧
      ∃ s17, pyStripOrEmpty (dGet water "district") = .ok s17 ∧
        List.lookup "district" r.feature_vector = some (.str s17) := by
  unfold mergeAndPredictAndStore at h
  split at h
  · injection h with h1 h2
    exact Option.noConfusion h1
  · next label fv hpred =>
    split at h
    · injection h with h1 h2
      exact Option.noConfusion h1
    · next center hcen =>
      injection h with h1 h2
      injection h1 with h1'
      subst h1'
      subst h2
      refine ⟨predDocOf sym water label fv center, rfl, rfl, rfl, ?_⟩
      have hdr : districtRaw (waterInputOf sym water) [("symptoms", symptomsListOf sym)] =
          dGet water "district" := rfl
      obtain ⟨d, hd, hlk⟩ := predict_ok_district cfg _ _ label fv hpred
      rw [hdr] at hd
      exact ⟨d, hd, hlk⟩

/-- Claim C10 witness: the concrete `c10` fusion succeeds and exhibits the
amended provenance — both stored district fields come from the water report. -/
theorem c10_witness :
    mergeAndPredictAndStore c10cfg [] c10sym c10water ⟨[], [], []⟩ =
        (some ⟨"Cholera", c10fv, Option.none⟩, c10dbOut) ∧
      (∃ d, c10dbOut.predictions = (⟨[], [], []⟩ : DB).predictions ++ [d] ∧
        dGet d.input_water "district" = dGet c10water "district" ∧
        d.feature_vector = some (⟨"Cholera", c10fv, Option.none⟩ : MergeResult).feature_vector ∧
        ∃ s17, pyStripOrEmpty (dGet c10water "district") = .ok s17 ∧
          List.lookup "district" (⟨"Cholera", c10fv, Option.none⟩ : MergeResult).feature_vector =
            some (.str s17)) :=
  ⟨rfl,
   c10_district_sources c10cfg [] c10sym c10water ⟨[], [], []⟩
     ⟨"Cholera", c10fv, Option.none⟩ c10dbOut rfl⟩

/-! ## Claim C6 — uniqueness and cross-source deduplication -/

theorem insertDescBy_perm {α : Type} (f : α → Nat) (a : α) (l : List α) :
    (insertDescBy f a l).Perm (a :: l) := by
  induction l with
  | nil => exact List.Perm.refl _
  | cons b bs ih =>
    unfold insertDescBy
    by_cases hc : f b < f a
    · rw [if_pos hc]
    · rw [if_neg hc]
      exact (ih.cons b).trans (List.Perm.swap a b bs)

theorem sortDescBy_perm {α : Type} (f : α → Nat) (l : List α) :
    (sortDescBy f l).Perm l := by
  induction l with
  | nil => exact List.Perm.refl _
  | cons a as ih =>
    unfold sortDescBy
    exact (insertDescBy_perm f a _).trans (ih.cons a)

theorem symLoopAux_mem (seen : List Bucket) (rows : List SymRow) :
    ∀ b ∈ symLoopAux seen rows,
      b.source = "symptoms_reports" ∧
        ∀ o ∈ seen, lowerKeyMatch o b.district b.areaName = false := by
  induction rows generalizing seen with
  | nil =>
    intro b hb
    exact absurd hb (by simp [symLoopAux])
  | cons r rs ih =>
    intro b hb
    unfold symLoopAux at hb
    by_cases hany :
        (seen.any fun o => lowerKeyMatch o (displayDistrictS r) (displayAreaS r)) = true
    · rw [if_pos hany] at hb
      exact ih seen b hb
    · rw [if_neg hany] at hb
      cases hinf : inferDisease r.symptoms with
      | error e =>
        rw [hinf] at hb
        exact absurd hb (by simp)
      | ok dis =>
        rw [hinf] at hb
        rcases List.mem_cons.mp hb with hb0 | hbrest
        · subst hb0
          refine ⟨rfl, ?_⟩
          intro o ho
          have hfalse : (seen.any fun o =>
              lowerKeyMatch o (displayDistrictS r) (displayAreaS r)) = false :=
            Bool.not_eq_true _ ▸ Bool.of_not_eq_true hany
          have := List.any_eq_false.mp hfalse o ho
          exact Bool.of_not_eq_true this
        · have h2 := ih (seen ++ [symBucketOf r (displayDistrictS r) (displayAreaS r) dis]) b hbrest
          exact ⟨h2.1, fun o ho => h2.2 o (List.mem_append_left _ ho)⟩

theorem symLoopAux_pairwise (seen : List Bucket) (rows : List SymRow) :
    (symLoopAux seen rows).Pairwise
      fun x y => lowerKeyMatch x y.district y.areaName = false := by
  induction rows generalizing seen with
  | nil => simp [symLoopAux]
  | cons r rs ih =>
    unfold symLoopAux
    by_cases hany :
        (seen.any fun o => lowerKeyMatch o (displayDistrictS r) (displayAreaS r)) = true
    · rw [if_pos hany]
      exact ih seen
    · rw [if_neg hany]
      cases hinf : inferDisease r.symptoms with
      | error e => simp
      | ok dis =>
        refine List.Pairwise.cons ?_ (ih _)
        intro y hy
        have hm := symLoopAux_mem _ _ y hy
        exact hm.2 _ (List.mem_append_right _ (List.mem_singleton.mpr rfl))

theorem lowerKeyMatch_false_ne {x y : Bucket}
    (h : lowerKeyMatch x y.district y.areaName = false) :
    (x.district, x.areaName, x.disease) ≠ (y.district, y.areaName, y.disease) := by
  intro he
  have h1 : x.district = y.district := congrArg Prod.fst he
  have h2 : x.areaName = y.areaName := congrArg (fun p => p.2.1) he
  unfold lowerKeyMatch at h
  rw [h1, h2] at h
  simp at h

theorem c6_merge_core (predB : List Bucket) (symSel : List SymRow) (lim : Nat)
    (hpredPW : predB.Pairwise fun x y => bKey x ≠ bKey y)
    (hsrc : ∀ x ∈ predB, x.source = "prediction_reports") :
    (((sortDescBy (·.totalPredictions) (predB ++ symLoopAux predB symSel)).take lim).map
        bKey).Pairwise (· ≠ ·) ∧
      ∀ b ∈ (sortDescBy (·.totalPredictions) (predB ++ symLoopAux predB symSel)).take lim,
        ∀ b' ∈ (sortDescBy (·.totalPredictions) (predB ++ symLoopAux predB symSel)).take lim,
          b.source = "symptoms_reports" → b'.source = "prediction_reports" →
            ¬(pyLower b.district = pyLower b'.district ∧
              pyLower b.areaName = pyLower b'.areaName) := by
  have hsymPW : (symLoopAux predB symSel).Pairwise fun x y => bKey x ≠ bKey y :=
    (symLoopAux_pairwise predB symSel).imp fun hab => lowerKeyMatch_false_ne hab
  have hcross : ∀ x ∈ predB, ∀ y ∈ symLoopAux predB symSel, bKey x ≠ bKey y :=
    fun x hx y hy => lowerKeyMatch_false_ne ((symLoopAux_mem predB symSel y hy).2 x hx)
  have happend : (predB ++ symLoopAux predB symSel).Pairwise fun x y => bKey x ≠ bKey y :=
    List.pairwise_append.mpr ⟨hpredPW, hsymPW, hcross⟩
  have hsymmKey : Symmetric fun x y : Bucket => bKey x ≠ bKey y := fun _ _ h => h.symm
  have hperm :=
    sortDescBy_perm (fun b : Bucket => b.totalPredictions) (predB ++ symLoopAux predB symSel)
  have hall : (sortDescBy (·.totalPredictions)
      (predB ++ symLoopAux predB symSel)).Pairwise fun x y => bKey x ≠ bKey y :=
    (List.Perm.pairwise_iff (fun h => hsymmKey h) hperm).mpr happend
  have htake := hall.sublist (List.take_sublist lim _)
  refine ⟨List.pairwise_map.mpr htake, ?_⟩
  intro b hb b' hb' hbs hbp hcontra
  have hb1 : b ∈ predB ++ symLoopAux predB symSel :=
    hperm.mem_iff.mp (List.take_subset _ _ hb)
  have hb'1 : b' ∈ predB ++ symLoopAux predB symSel :=
    hperm.mem_iff.mp (List.take_subset _ _ hb')
  have hbsym : b ∈ symLoopAux predB symSel := by
    rcases List.mem_append.mp hb1 with hpb | hsb
    · rw [hsrc b hpb] at hbs
      exact absurd hbs (by decide)
    · exact hsb
  have hb'pred : b' ∈ predB := by
    rcases List.mem_append.mp hb'1 with hpb | hsb
    · exact hpb
    · rw [(symLoopAux_mem predB symSel b' hsb).1] at hbp
      exact absurd hbp (by decide)
  have hmatch := (symLoopAux_mem predB symSel b hbsym).2 b' hb'pred
  unfold lowerKeyMatch at hmatch
  rw [← hcontra.1, ← hcontra.2] at hmatch
  simp at hmatch

/-- Claim C6 counterexample: two prediction group rows with **distinct**
Mongo group keys — `area` null (which falls back to the district name for
display) versus `area` literally equal to the district name — render to two
returned buckets with the identical (district, area, disease) display key;
the endpoint has no prediction-vs-prediction dedup, so the returned buckets
are **not** unique by key. -/
theorem c6_counterexample :
    ((getPredictionOutbreaks
        [⟨some "D", Option.none, some "Cholera", 10⟩, ⟨some "D", some "D", some "Cholera", 9⟩]
        [] 5 15 100).outbreaks.map bKey) =
      [("D", "D", "Cholera"), ("D", "D", "Cholera")] ∧
      ¬ (((getPredictionOutbreaks
          [⟨some "D", Option.none, some "Cholera", 10⟩, ⟨some "D", some "D", some "Cholera", 9⟩]
          [] 5 15 100).outbreaks.map bKey).Pairwise (· ≠ ·)) := by
  constructor
  · rfl
  · intro h
    rw [show ((getPredictionOutbreaks
        [⟨some "D", Option.none, some "Cholera", 10⟩, ⟨some "D", some "D", some "Cholera", 9⟩]
        [] 5 15 100).outbreaks.map bKey) =
      [("D", "D", "Cholera"), ("D", "D", "Cholera")] from rfl] at h
    exact (List.pairwise_cons.mp h).1 ("D", "D", "Cholera") (List.mem_singleton.mpr rfl) rfl

/-- Claim C6 (amended): the cross-source deduplication holds as claimed — a
returned symptom-cluster bucket never shares even a case-insensitive
(district, area) key with a returned prediction-source bucket, the
higher-priority prediction source suppressing same-key symptom-cluster
buckets regardless of their counts — but uniqueness by key holds only under
the proviso that the prediction-source group rows render to pairwise-distinct
display keys: distinct Mongo group keys can display identically (a null area
falls back to the district name, a null district displays as the empty
string), and the endpoint then returns duplicate-keyed prediction buckets,
having no prediction-vs-prediction dedup. -/
theorem c6_unique_and_crosssource
    (predRows : List PredRow) (symRows : List SymRow) (minT highT lim : Nat)
    (H1 : (predRows.map rowKey).Pairwise (· ≠ ·)) :
    ((getPredictionOutbreaks predRows symRows minT highT lim).outbreaks.map
        bKey).Pairwise (· ≠ ·) ∧
      ∀ b ∈ (getPredictionOutbreaks predRows symRows minT highT lim).outbreaks,
        ∀ b' ∈ (getPredictionOutbreaks predRows symRows minT highT lim).outbreaks,
          b.source = "symptoms_reports" → b'.source = "prediction_reports" →
            ¬(pyLower b.district = pyLower b'.district ∧
              pyLower b.areaName = pyLower b'.areaName) := by
  have hsymmNe : Symmetric (α := String × String × String) (· ≠ ·) := fun _ _ h => h.symm
  have hfilter : ((predRows.filter fun r => minT ≤ r.total).map rowKey).Pairwise (· ≠ ·) :=
    H1.sublist ((List.filter_sublist _).map rowKey)
  have hsorted :
      ((sortDescBy (·.total) (predRows.filter fun r => minT ≤ r.total)).map rowKey).Pairwise
        (· ≠ ·) :=
    (List.Perm.pairwise_iff (fun h => hsymmNe h)
      ((sortDescBy_perm (fun r : PredRow => r.total) _).map rowKey)).mpr hfilter
  have htakep :
      (((sortDescBy (·.total) (predRows.filter fun r => minT ≤ r.total)).take lim).map
        rowKey).Pairwise (· ≠ ·) :=
    hsorted.sublist ((List.take_sublist lim _).map rowKey)
  have hpredPW :
      ((((sortDescBy (·.total) (predRows.filter fun r => minT ≤ r.total)).take lim)).map
        predBucketOf).Pairwise fun x y => bKey x ≠ bKey y := by
    rw [List.pairwise_map]
    exact List.pairwise_map.mp htakep
  have hsrc : ∀ x ∈ (((sortDescBy (·.total)
      (predRows.filter fun r => minT ≤ r.total)).take lim)).map predBucketOf,
      x.source = "prediction_reports" := by
    intro x hx
    rcases List.mem_map.mp hx with ⟨r, _, hr⟩
    rw [← hr]
    rfl
  exact c6_merge_core _ _ lim hpredPW hsrc

/-- Claim C6 witness: one prediction bucket (D, A, Cholera) and two symptom
rows, one of which collides case-insensitively with the prediction bucket and
is suppressed; the returned buckets are unique by key. -/
theorem c6_witness :
    (([⟨some "D", some "A", some "Cholera", 10⟩] : List PredRow).map rowKey).Pairwise
        (· ≠ ·) ∧
      (((getPredictionOutbreaks [⟨some "D", some "A", some "Cholera", 10⟩]
          [⟨some "d", some "a", 7, [.list [.str "diarrhea"]]⟩,
           ⟨some "E", some "F", 6, [.list [.str "fever"]]⟩] 5 15 100).outbreaks.map
            bKey).Pairwise (· ≠ ·) ∧
        ∀ b ∈ (getPredictionOutbreaks [⟨some "D", some "A", some "Cholera", 10⟩]
            [⟨some "d", some "a", 7, [.list [.str "diarrhea"]]⟩,
             ⟨some "E", some "F", 6, [.list [.str "fever"]]⟩] 5 15 100).outbreaks,
          ∀ b' ∈ (getPredictionOutbreaks [⟨some "D", some "A", some "Cholera", 10⟩]
              [⟨some "d", some "a", 7, [.list [.str "diarrhea"]]⟩,
               ⟨some "E", some "F", 6, [.list [.str "fever"]]⟩] 5 15 100).outbreaks,
            b.source = "symptoms_reports" → b'.source = "prediction_reports" →
              ¬(pyLower b.district = pyLower b'.district ∧
                pyLower b.areaName = pyLower b'.areaName)) :=
  ⟨by simp,
   c6_unique_and_crosssource [⟨some "D", some "A", some "Cholera", 10⟩]
     [⟨some "d", some "a", 7, [.list [.str "diarrhea"]]⟩,
      ⟨some "E", some "F", 6, [.list [.str "fever"]]⟩] 5 15 100 (by simp)⟩
